import Mathlib

/-!
Verification of the Ontology Lineage Graph Engine
(`backend/app/services/graph_service.py` and the pydantic models under
`backend/app/models/`) against its natural-language specification.

The entity records below are translated field-by-field from the pydantic
model files.  Note that `app/models/measure.py` declares
`input_attribute_ids` (not `input_observation_ids`) and
`app/models/process.py` declares `consumes_attribute_ids`,
`produces_attribute_ids` and `crystallizes_attribute_ids` (not the
`*_observation_ids` names used by `graph_service.py`).  On a pydantic
`BaseModel`, reading an attribute that is not a declared field raises
`AttributeError`; the fallible getters below model exactly those accesses.
Operations that can perform such an access are embedded in the `Except`
monad; `Except.ok none` models Python's `return None` (the NotFound case),
`Except.ok (some r)` a successful result dict, and `Except.error` a raised
exception.
-/

namespace OntologyGraph

/-- Python exception value: `AttributeError` carrying the missing attribute
name.  This is the only exception the embedded code can raise. -/
inductive PyErr where
  | attributeError (attr : String) : PyErr
deriving DecidableEq, Repr

/-- From `app/models/perspective.py` (`class Perspective`). -/
structure Perspective where
  id : String
  name : String
  purpose : String
  primary_concern : String
  typical_actors : List String
  consumes_from : List String
  feeds : List String
deriving DecidableEq, Repr

/-- From `app/models/system.py` (`class System`); the `Literal` string
enums are modelled as plain strings. -/
structure System where
  id : String
  name : String
  type : String
  vendor : Option String
  reliability_default : Option String
  integration_status : Option String
  notes : Option String
deriving DecidableEq, Repr

/-- From `app/models/entity.py` (`class CoreAttribute`). -/
structure CoreAttribute where
  name : String
  data_type : String
  description : Option String
deriving DecidableEq, Repr

/-- From `app/models/entity.py` (`class DerivedAttribute`). -/
structure DerivedAttribute where
  name : String
  data_type : Option String
  description : Option String
  derivation : Option String
deriving DecidableEq, Repr

/-- From `app/models/entity.py` (`class EntityLens`). -/
structure EntityLens where
  perspective_id : String
  interpretation : String
  derived_attributes : List DerivedAttribute
deriving DecidableEq, Repr

/-- From `app/models/entity.py` (`class Entity`, the business object). -/
structure BizEntity where
  id : String
  name : String
  description : Option String
  core_attributes : List CoreAttribute
  lenses : List EntityLens
deriving DecidableEq, Repr

/-- From `app/models/observation.py` (`class Observation`). -/
structure Observation where
  id : String
  name : String
  description : Option String
  entity_id : String
  system_id : String
  source_actor : Option String
  reliability : Option String
  volatility : Option String
  notes : Option String
deriving DecidableEq, Repr

/-- From `app/models/measure.py` (`class Measure`).  The declared foreign-key
list fields are `input_attribute_ids`, `input_measure_ids` and
`perspective_ids`; there is NO `input_observation_ids` field. -/
structure Measure where
  id : String
  name : String
  description : Option String
  logic : Option String
  formula : Option String
  input_attribute_ids : List String
  input_measure_ids : List String
  perspective_ids : List String
deriving DecidableEq, Repr

/-- From `app/models/metric.py` (`class Metric`). -/
structure Metric where
  id : String
  name : String
  description : Option String
  business_question : String
  calculated_by_measure_ids : List String
  perspective_ids : List String
deriving DecidableEq, Repr

/-- From `app/models/process.py` (`class ProcessStep`).  The declared
observation-role fields are `consumes_attribute_ids`,
`produces_attribute_ids` and `crystallizes_attribute_ids`; there are NO
`*_observation_ids` fields.  `has_sub_steps` is `Optional[bool]` with
pydantic default `False`; `perspective_level` is `Optional[...]` with
pydantic default `"financial"` (so an explicit `null` is stored as `none`,
while an absent key receives the default at validation). -/
structure ProcessStep where
  id : String
  sequence : Int
  name : String
  description : Option String
  perspective_id : String
  actor : Option String
  consumes_attribute_ids : List String
  produces_attribute_ids : List String
  uses_metric_ids : List String
  crystallizes_attribute_ids : List String
  depends_on_step_ids : List String
  parent_step_id : Option String
  has_sub_steps : Option Bool
  perspective_level : Option String
  estimated_duration_minutes : Option Int
  automation_potential : Option String
  systems_used_ids : List String
  waste_category : Option String
  manual_effort_percentage : Option Int
deriving DecidableEq, Repr

/-- From `app/models/process.py` (`class Process`). -/
structure Process where
  id : String
  name : String
  description : Option String
  steps : List ProcessStep
deriving DecidableEq, Repr

/-- A consistent read snapshot of the entity store, as exposed to
`GraphService` through the repositories (`app/db/repositories.py`): each
repository offers `get_by_id` (first row with matching id) and `get_all`. -/
structure Store where
  perspectives : List Perspective
  systems : List System
  entities : List BizEntity
  observations : List Observation
  measures : List Measure
  metrics : List Metric
  processes : List Process
deriving DecidableEq, Repr

/-- Repository `get_by_id`: first stored entity with the given id. -/
def Store.metricById (st : Store) (id : String) : Option Metric :=
  st.metrics.find? (fun m => m.id == id)

def Store.measureById (st : Store) (id : String) : Option Measure :=
  st.measures.find? (fun m => m.id == id)

def Store.observationById (st : Store) (id : String) : Option Observation :=
  st.observations.find? (fun o => o.id == id)

def Store.systemById (st : Store) (id : String) : Option System :=
  st.systems.find? (fun s => s.id == id)

def Store.entityById (st : Store) (id : String) : Option BizEntity :=
  st.entities.find? (fun e => e.id == id)

def Store.processById (st : Store) (id : String) : Option Process :=
  st.processes.find? (fun p => p.id == id)

def Store.perspectiveById (st : Store) (id : String) : Option Perspective :=
  st.perspectives.find? (fun p => p.id == id)

/-- Python `set.add`: sets are modelled as duplicate-free lists in insertion
order (no settled claim depends on the iteration order of these sets). -/
def setAdd (s : List String) (x : String) : List String :=
  if x ∈ s then s else s ++ [x]

/-- Python `set.update` with an iterable. -/
def setUpdate (s : List String) (xs : List String) : List String :=
  xs.foldl setAdd s

/-- The access `measure.input_observation_ids` in `graph_service.py`: the
`Measure` model declares `input_attribute_ids` but no
`input_observation_ids`, so this attribute access raises `AttributeError`
on every `Measure` instance. -/
def Measure.input_observation_ids (_ : Measure) : Except PyErr (List String) :=
  throw (PyErr.attributeError "input_observation_ids")

/-- The access `step.produces_observation_ids` in `graph_service.py`: the
`ProcessStep` model declares `produces_attribute_ids` only, so this access
raises `AttributeError`. -/
def ProcessStep.produces_observation_ids (_ : ProcessStep) : Except PyErr (List String) :=
  throw (PyErr.attributeError "produces_observation_ids")

/-- The access `step.consumes_observation_ids` in `graph_service.py`: the
`ProcessStep` model declares `consumes_attribute_ids` only, so this access
raises `AttributeError`. -/
def ProcessStep.consumes_observation_ids (_ : ProcessStep) : Except PyErr (List String) :=
  throw (PyErr.attributeError "consumes_observation_ids")

/-- The access `step.crystallizes_observation_ids` in `graph_service.py`:
the `ProcessStep` model declares `crystallizes_attribute_ids` only, so this
access raises `AttributeError`. -/
def ProcessStep.crystallizes_observation_ids (_ : ProcessStep) : Except PyErr (List String) :=
  throw (PyErr.attributeError "crystallizes_observation_ids")

/-- Result shape of `GraphService.trace_metric`; `model_dump` serialization
is modelled as the identity on records. -/
structure TraceResult where
  metric : Metric
  measures : List Measure
  observations : List Observation
  systems : List System
  entities : List BizEntity
deriving DecidableEq, Repr

/-- `GraphService.trace_metric` (graph_service.py lines 28-84), translated
statement by statement. -/
def trace_metric (st : Store) (metric_id : String) : Except PyErr (Option TraceResult) := do
  match st.metricById metric_id with
  | none => return none
  | some metric =>
    let mut measures : List Measure := []
    let mut all_observation_ids : List String := []
    for measure_id in metric.calculated_by_measure_ids do
      match st.measureById measure_id with
      | some measure =>
        measures := measures ++ [measure]
        all_observation_ids := setUpdate all_observation_ids (← measure.input_observation_ids)
        for input_measure_id in measure.input_measure_ids do
          match st.measureById input_measure_id with
          | some input_measure =>
            measures := measures ++ [input_measure]
            all_observation_ids :=
              setUpdate all_observation_ids (← input_measure.input_observation_ids)
          | none => pure ()
      | none => pure ()
    let mut observations : List Observation := []
    let mut system_ids : List String := []
    let mut entity_ids : List String := []
    for obs_id in all_observation_ids do
      match st.observationById obs_id with
      | some obs =>
        observations := observations ++ [obs]
        system_ids := setAdd system_ids obs.system_id
        entity_ids := setAdd entity_ids obs.entity_id
      | none => pure ()
    let mut systems : List System := []
    for sys_id in system_ids do
      match st.systemById sys_id with
      | some system => systems := systems ++ [system]
      | none => pure ()
    let mut entities : List BizEntity := []
    for ent_id in entity_ids do
      match st.entityById ent_id with
      | some entity => entities := entities ++ [entity]
      | none => pure ()
    return some { metric, measures, observations, systems, entities }

/-- Result shape of `GraphService.analyze_impact`. -/
structure ImpactResult where
  observation : Observation
  affected_measures : List Measure
  affected_metrics : List Metric
deriving DecidableEq, Repr

/-- `GraphService.analyze_impact` (graph_service.py lines 86-118).  The
list comprehension over `all_measures` reads `m.input_observation_ids` for
every stored measure. -/
def analyze_impact (st : Store) (observation_id : String) : Except PyErr (Option ImpactResult) := do
  match st.observationById observation_id with
  | none => return none
  | some observation =>
    let mut affected_measures : List Measure := []
    for m in st.measures do
      if observation_id ∈ (← m.input_observation_ids) then
        affected_measures := affected_measures ++ [m]
    let affected_measure_ids := affected_measures.map (fun m => m.id)
    let affected_metrics := st.metrics.filter (fun m =>
      m.calculated_by_measure_ids.any (fun measure_id => measure_id ∈ affected_measure_ids))
    return some { observation, affected_measures, affected_metrics }

/-- Result shape of `GraphService.get_measure_usage`. -/
structure MeasureUsageResult where
  measure : Measure
  used_in_metrics : List Metric
  used_in_measures : List Measure
  depends_on_observations : List Observation
  depends_on_measures : List Measure
deriving DecidableEq, Repr

/-- `GraphService.get_measure_usage` (graph_service.py lines 120-166). -/
def get_measure_usage (st : Store) (measure_id : String) : Except PyErr (Option MeasureUsageResult) := do
  match st.measureById measure_id with
  | none => return none
  | some measure =>
    let used_in_metrics := st.metrics.filter (fun m =>
      measure_id ∈ m.calculated_by_measure_ids)
    let used_in_measures := st.measures.filter (fun m =>
      measure_id ∈ m.input_measure_ids)
    let mut depends_on_observations : List Observation := []
    for obs_id in (← measure.input_observation_ids) do
      match st.observationById obs_id with
      | some obs => depends_on_observations := depends_on_observations ++ [obs]
      | none => pure ()
    let mut depends_on_measures : List Measure := []
    for dep_measure_id in measure.input_measure_ids do
      match st.measureById dep_measure_id with
      | some dep_measure => depends_on_measures := depends_on_measures ++ [dep_measure]
      | none => pure ()
    return some { measure, used_in_metrics, used_in_measures,
                  depends_on_observations, depends_on_measures }

/-- The `waste_analysis` dict built by `get_full_lineage`;
`potential_time_savings_minutes` is `none` when the key is not added. -/
structure WasteAnalysis where
  task_duration_minutes : Int
  automation_potential : Option String
  waste_category : Option String
  manual_effort_percentage : Option Int
  is_wasteful : Bool
  potential_time_savings_minutes : Option Int
deriving DecidableEq, Repr

/-- The source computes `int(estimated_duration_minutes *
(manual_effort_percentage / 100))` in binary floating point; it is embedded
as exact floor division.  (For some inputs, e.g. 100 and 29, the float
computation yields 28 where exact floor division yields 29; no settled
claim depends on this value because `get_full_lineage` raises
`AttributeError` before reaching this code.) -/
def potential_savings (duration pct : Int) : Int :=
  Int.fdiv (duration * pct) 100

/-- Result shape of `GraphService.get_full_lineage`. -/
structure LineageResult where
  step : ProcessStep
  consumes_observations : List Observation
  produces_observations : List Observation
  crystallizes_observations : List Observation
  observations_feed_measures : List Measure
  measures_calculate_metrics : List Metric
  systems_used : List System
  waste_analysis : Option WasteAnalysis
deriving DecidableEq, Repr

/-- The step-locating loop of `get_full_lineage` (lines 177-185): iterate
processes in store order, steps in list order, and stop at the first step
with the given id. -/
def locate_step (st : Store) (step_id : String) : Option ProcessStep :=
  (st.processes.flatMap (fun p => p.steps)).find? (fun s => s.id == step_id)

/-- `GraphService.get_full_lineage` (graph_service.py lines 168-262). -/
def get_full_lineage (st : Store) (step_id : String) : Except PyErr (Option LineageResult) := do
  match locate_step st step_id with
  | none => return none
  | some step =>
    let mut produced_observations : List Observation := []
    for obs_id in (← step.produces_observation_ids) do
      match st.observationById obs_id with
      | some obs => produced_observations := produced_observations ++ [obs]
      | none => pure ()
    let mut consumed_observations : List Observation := []
    for obs_id in (← step.consumes_observation_ids) do
      match st.observationById obs_id with
      | some obs => consumed_observations := consumed_observations ++ [obs]
      | none => pure ()
    let mut crystallized_observations : List Observation := []
    for obs_id in (← step.crystallizes_observation_ids) do
      match st.observationById obs_id with
      | some obs => crystallized_observations := crystallized_observations ++ [obs]
      | none => pure ()
    let all_observation_ids :=
      setUpdate [] ((← step.produces_observation_ids) ++ (← step.crystallizes_observation_ids))
    let mut affected_measures : List Measure := []
    for measure in st.measures do
      if (← measure.input_observation_ids).any (fun obs_id => obs_id ∈ all_observation_ids) then
        affected_measures := affected_measures ++ [measure]
    let affected_measure_ids := affected_measures.map (fun m => m.id)
    let affected_metrics := st.metrics.filter (fun metric =>
      metric.calculated_by_measure_ids.any (fun measure_id => measure_id ∈ affected_measure_ids))
    let mut systems_used : List System := []
    for system_id in step.systems_used_ids do
      match st.systemById system_id with
      | some system => systems_used := systems_used ++ [system]
      | none => pure ()
    -- `if hasattr(step, 'estimated_duration_minutes') and step.estimated_duration_minutes:`
    -- the field exists on the model, so only Python truthiness matters
    -- (None and 0 are falsy).
    let waste_analysis : Option WasteAnalysis :=
      match step.estimated_duration_minutes with
      | none => none
      | some d =>
        if d = 0 then none
        else
          let base : WasteAnalysis :=
            { task_duration_minutes := d
              automation_potential := step.automation_potential
              waste_category := step.waste_category
              manual_effort_percentage := step.manual_effort_percentage
              is_wasteful := step.automation_potential == some "High"
                          || step.automation_potential == some "Medium"
              potential_time_savings_minutes := none }
          -- `if waste_analysis["manual_effort_percentage"]:` (None and 0 falsy)
          match step.manual_effort_percentage with
          | none => some base
          | some p =>
            if p = 0 then some base
            else some { base with potential_time_savings_minutes := some (potential_savings d p) }
    return some { step,
                  consumes_observations := consumed_observations,
                  produces_observations := produced_observations,
                  crystallizes_observations := crystallized_observations,
                  observations_feed_measures := affected_measures,
                  measures_calculate_metrics := affected_metrics,
                  systems_used, waste_analysis }

/-- A process step annotated with its owning process, as built by
`get_perspective_view`. -/
structure PerspectiveStepEntry where
  step : ProcessStep
  process_id : String
  process_name : String
deriving DecidableEq, Repr

/-- Result shape of `GraphService.get_perspective_view`. -/
structure PerspectiveViewResult where
  perspective : Perspective
  metrics : List Metric
  measures : List Measure
  observations : List Observation
  entities : List BizEntity
  process_steps : List PerspectiveStepEntry
deriving DecidableEq, Repr

/-- `GraphService.get_perspective_view` (graph_service.py lines 264-313).
`get_by_perspective` filters on membership in `perspective_ids`. -/
def get_perspective_view (st : Store) (perspective_id : String) :
    Except PyErr (Option PerspectiveViewResult) := do
  match st.perspectiveById perspective_id with
  | none => return none
  | some perspective =>
    let metrics := st.metrics.filter (fun m => perspective_id ∈ m.perspective_ids)
    let measures := st.measures.filter (fun m => perspective_id ∈ m.perspective_ids)
    let mut observation_ids : List String := []
    for measure in measures do
      observation_ids := setUpdate observation_ids (← measure.input_observation_ids)
    let observations := observation_ids.filterMap (fun obs_id => st.observationById obs_id)
    let entity_ids := setUpdate [] (observations.map (fun obs => obs.entity_id))
    let entities := entity_ids.filterMap (fun ent_id => st.entityById ent_id)
    let mut process_steps : List PerspectiveStepEntry := []
    for process in st.processes do
      for step in process.steps do
        if step.perspective_id == perspective_id then
          process_steps := process_steps ++
            [{ step, process_id := process.id, process_name := process.name }]
    return some { perspective, metrics, measures, observations, entities, process_steps }

/-- Result shape of `GraphService.get_entity_full`. -/
structure EntityFullResult where
  entity : BizEntity
  observations : List Observation
  systems : List System
deriving DecidableEq, Repr

/-- `GraphService.get_entity_full` (graph_service.py lines 315-338); it
touches only declared fields, so it cannot raise. -/
def get_entity_full (st : Store) (entity_id : String) : Option EntityFullResult :=
  match st.entityById entity_id with
  | none => none
  | some entity =>
    let observations := st.observations.filter (fun o => o.entity_id == entity_id)
    let system_ids := setUpdate [] (observations.map (fun obs => obs.system_id))
    let systems := system_ids.filterMap (fun sys_id => st.systemById sys_id)
    some { entity, observations, systems }

/-- Python truthiness of an `Optional[str]`: `None` and the empty string
are falsy. -/
def pyTruthy : Option String → Bool
  | none => false
  | some s => s != ""

/-- Node dict built by `get_process_flow`; `getattr(step, "actor", None)`,
`getattr(step, "has_sub_steps", False)` and `getattr(step,
"perspective_level", "financial")` all return the stored field value, since
every one of these fields is declared on the `ProcessStep` model (the
`getattr` fallbacks are dead). -/
structure FlowNode where
  id : String
  label : String
  sequence : Int
  perspective_id : String
  actor : Option String
  has_sub_steps : Option Bool
  perspective_level : Option String
deriving DecidableEq, Repr

/-- Edge dict built by `get_process_flow`. -/
structure FlowEdge where
  source : String
  target : String
deriving DecidableEq, Repr

/-- The step filter of `get_process_flow` (graph_service.py lines 359-374):
`if parent_step_id:` and `elif perspective_level:` use Python truthiness,
and `not getattr(s, 'parent_step_id', None)` is truthiness of the stored
field. -/
def steps_to_show (process : Process) (perspective_level parent_step_id : Option String) :
    List ProcessStep :=
  if pyTruthy parent_step_id then
    process.steps.filter (fun s => s.parent_step_id == parent_step_id)
  else if pyTruthy perspective_level then
    process.steps.filter (fun s =>
      s.perspective_level == perspective_level && !(pyTruthy s.parent_step_id))
  else
    process.steps.filter (fun s => !(pyTruthy s.parent_step_id))

/-- The node dict appended for each shown step. -/
def node_of_step (step : ProcessStep) : FlowNode :=
  { id := step.id
    label := step.name
    sequence := step.sequence
    perspective_id := step.perspective_id
    actor := step.actor
    has_sub_steps := step.has_sub_steps
    perspective_level := step.perspective_level }

/-- Result shape of `GraphService.get_process_flow`. -/
structure ProcessFlowResult where
  process_id : String
  process_name : String
  process_description : Option String
  nodes : List FlowNode
  edges : List FlowEdge
deriving DecidableEq, Repr

/-- `GraphService.get_process_flow` (graph_service.py lines 340-402).  The
source appends one node and that step's edges per loop iteration; the two
resulting lists equal the map and flat-map below (same elements, same
order). -/
def get_process_flow (st : Store) (process_id : String)
    (perspective_level parent_step_id : Option String) : Option ProcessFlowResult :=
  match st.processById process_id with
  | none => none
  | some process =>
    let shown := steps_to_show process perspective_level parent_step_id
    let nodes := shown.map node_of_step
    let edges := shown.flatMap (fun step =>
      step.depends_on_step_ids.map (fun dep_id => FlowEdge.mk dep_id step.id))
    some { process_id := process.id
           process_name := process.name
           process_description := process.description
           nodes, edges }

/-- One entry of `crystallization_map`. -/
structure CrystallizationPoint where
  step_id : String
  step_name : String
  step_sequence : Int
  crystallized_observations : List Observation
deriving DecidableEq, Repr

/-- Result shape of `GraphService.get_crystallization_points`. -/
structure CrystallizationResult where
  process_id : String
  process_name : String
  crystallization_points : List CrystallizationPoint
deriving DecidableEq, Repr

/-- `GraphService.get_crystallization_points` (graph_service.py lines
404-435).  The loop body reads `step.crystallizes_observation_ids` for
every step of the process before testing emptiness. -/
def get_crystallization_points (st : Store) (process_id : String) :
    Except PyErr (Option CrystallizationResult) := do
  match st.processById process_id with
  | none => return none
  | some process =>
    let mut crystallization_map : List CrystallizationPoint := []
    for step in process.steps do
      let crystallizes ← step.crystallizes_observation_ids
      if crystallizes ≠ [] then
        let observations := crystallizes.filterMap (fun obs_id => st.observationById obs_id)
        crystallization_map := crystallization_map ++
          [{ step_id := step.id
             step_name := step.name
             step_sequence := step.sequence
             crystallized_observations := observations }]
    return some { process_id := process.id
                  process_name := process.name
                  crystallization_points := crystallization_map }

/-! ### Concrete fixtures

Baseline records with the pydantic defaults of each model (fields with a
`Field(default=...)` hold that default; `default_factory=list` fields hold
`[]`), mirroring `tests/conftest.py`-style data. -/

/-- A measure with all optional fields at their pydantic defaults. -/
def measure0 : Measure :=
  { id := "", name := "", description := none, logic := none, formula := none
    input_attribute_ids := [], input_measure_ids := [], perspective_ids := [] }

/-- A metric with all optional fields at their pydantic defaults. -/
def metric0 : Metric :=
  { id := "", name := "", description := none, business_question := ""
    calculated_by_measure_ids := [], perspective_ids := [] }

/-- An observation with all optional fields at their pydantic defaults. -/
def observation0 : Observation :=
  { id := "", name := "", description := none, entity_id := "", system_id := ""
    source_actor := none, reliability := none, volatility := none, notes := none }

/-- A process step with all optional fields at their pydantic defaults
(`has_sub_steps = False`, `perspective_level = "financial"`). -/
def step0 : ProcessStep :=
  { id := "", sequence := 0, name := "", description := none, perspective_id := ""
    actor := none, consumes_attribute_ids := [], produces_attribute_ids := []
    uses_metric_ids := [], crystallizes_attribute_ids := [], depends_on_step_ids := []
    parent_step_id := none, has_sub_steps := some false
    perspective_level := some "financial", estimated_duration_minutes := none
    automation_potential := none, systems_used_ids := [], waste_category := none
    manual_effort_percentage := none }

/-- The empty store. -/
def store0 : Store :=
  { perspectives := [], systems := [], entities := [], observations := []
    measures := [], metrics := [], processes := [] }

/-- The measure `test_measure` of `tests/conftest.py` (its
`input_observation_ids` entry is ignored by pydantic because the model has
no such field; the stored record is this one). -/
def testMeasure : Measure :=
  { measure0 with
    id := "test_measure", name := "Test Measure",
    description := some "Test measure", logic := some "sum(test_observation)",
    perspective_ids := ["test_perspective"] }

/-- The metric `test_metric` of `tests/conftest.py`. -/
def testMetric : Metric :=
  { metric0 with
    id := "test_metric", name := "Test Metric",
    description := some "Test metric",
    business_question := "What is the test value?",
    calculated_by_measure_ids := ["test_measure"],
    perspective_ids := ["test_perspective"] }

/-- The observation `test_observation` of `tests/conftest.py`. -/
def testObservation : Observation :=
  { observation0 with
    id := "test_observation", name := "Test Observation",
    description := some "Test observation", entity_id := "test_entity",
    system_id := "test_system" }

/-- The step `step1` of the `test_process` fixture of `tests/conftest.py`
(its `crystallizes_observation_ids` entry is ignored by pydantic because
the model has no such field). -/
def testStep : ProcessStep :=
  { step0 with
    id := "step1", sequence := 1, name := "Step 1",
    perspective_id := "test_perspective", actor := some "Tester" }

/-- The process `test_process` of `tests/conftest.py`. -/
def testProcess : Process :=
  { id := "test_process", name := "Test Process"
    description := some "Test process", steps := [testStep] }

/-! ### Claims C1-C6 and C9: operations that reach a renamed field

`graph_service.py` and the repository's own tests
(`tests/test_models.py`, `tests/test_graph_service.py`,
`tests/conftest.py`) use the field names `input_observation_ids`,
`consumes_observation_ids`, `produces_observation_ids` and
`crystallizes_observation_ids`, but the pydantic models under
`app/models/` declare only the `*_attribute_ids` spellings, so these
operations raise `AttributeError` instead of returning the results the
spec (and the tests) describe. -/

/-- Store for claim C1: the conftest metric and measure. -/
def storeC1 : Store := { store0 with metrics := [testMetric], measures := [testMeasure] }

/-- Claim C1: for every Metric with non-empty `calculated_by_measure_ids`,
`traceMetric` is claimed to return the resolvable listed Measures plus one
level of chained `input_measure_ids`, with no duplicates.  In fact, as soon
as one listed measure resolves, `trace_metric` raises
`AttributeError("input_observation_ids")` (the `Measure` model declares
`input_attribute_ids`), so no measures list is returned at all. -/
theorem c1_trace_metric_raises :
    trace_metric storeC1 "test_metric" =
      Except.error (PyErr.attributeError "input_observation_ids") := by
  rfl

/-- Store for claim C2: a single stored measure. -/
def storeC2 : Store := { store0 with measures := [testMeasure] }

/-- Claim C2: every query operation is claimed to return a result or
NotFound and never raise.  In fact `get_measure_usage` on a resolvable
measure raises `AttributeError("input_observation_ids")` when it reads the
root measure's input observations. -/
theorem c2_get_measure_usage_raises :
    get_measure_usage storeC2 "test_measure" =
      Except.error (PyErr.attributeError "input_observation_ids") := by
  rfl

/-- Store for claim C3: the conftest observation plus one stored measure. -/
def storeC3 : Store :=
  { store0 with observations := [testObservation], measures := [testMeasure] }

/-- Claim C3: `analyzeImpact` is claimed to return the Measures whose
`input_observation_ids` contain the observation (empty lists when none do).
In fact the comprehension over `all_measures` reads
`m.input_observation_ids` on every stored measure, so the call raises
`AttributeError` whenever the store holds any measure at all. -/
theorem c3_analyze_impact_raises :
    analyze_impact storeC3 "test_observation" =
      Except.error (PyErr.attributeError "input_observation_ids") := by
  rfl

/-- The waste-scenario step of claim C4: `estimated_duration_minutes=60`,
`manual_effort_percentage=50`, `automation_potential="High"`. -/
def wasteStep : ProcessStep :=
  { step0 with
    id := "waste_step", sequence := 1, name := "Waste Step",
    perspective_id := "financial", estimated_duration_minutes := some 60,
    manual_effort_percentage := some 50, automation_potential := some "High" }

/-- Store for claim C4: a process containing the waste-scenario step. -/
def storeC4 : Store :=
  { store0 with processes :=
      [{ id := "waste_process", name := "Waste Process", description := none
         steps := [wasteStep] }] }

/-- Claim C4: `getFullLineage` on the scenario step is claimed to yield a
`waste_analysis` block with `potential_time_savings_minutes = 30` and
`is_wasteful = true`.  In fact `get_full_lineage` raises
`AttributeError("produces_observation_ids")` for every located step (the
`ProcessStep` model declares `produces_attribute_ids`), so the waste code
is never reached. -/
theorem c4_get_full_lineage_raises :
    get_full_lineage storeC4 "waste_step" =
      Except.error (PyErr.attributeError "produces_observation_ids") := by
  rfl

/-- Store for claim C5: an observation plus a stored measure. -/
def storeC5 : Store :=
  { store0 with observations := [testObservation], measures := [testMeasure] }

/-- Claim C5: the result is claimed to be NotFound exactly when the root ID
fails to resolve, and a success object otherwise.  The NotFound direction
holds (`analyzeImpact("nonexistent_observation")` returns NotFound, the
spec's scenario), but on a resolvable root the call raises an
`AttributeError` instead of producing a success object. -/
theorem c5_notfound_vs_raise :
    analyze_impact storeC5 "nonexistent_observation" = Except.ok none ∧
    analyze_impact storeC5 "test_observation" =
      Except.error (PyErr.attributeError "input_observation_ids") := by
  constructor <;> rfl

/-- Metric for claim C6: one dangling measure reference followed by a
resolvable one. -/
def metricC6 : Metric :=
  { metric0 with
    id := "metric_c6", name := "Metric C6",
    business_question := "?",
    calculated_by_measure_ids := ["ghost_measure", "test_measure"] }

/-- Store for claim C6. -/
def storeC6 : Store := { store0 with metrics := [metricC6], measures := [testMeasure] }

/-- Claim C6: when the root resolves, dangling foreign keys are claimed to
be silently omitted while the query still succeeds.  The dangling
`"ghost_measure"` reference is indeed skipped, but the query then raises
`AttributeError` on the first resolvable measure, so it does not succeed. -/
theorem c6_trace_metric_raises :
    trace_metric storeC6 "metric_c6" =
      Except.error (PyErr.attributeError "input_observation_ids") := by
  rfl

/-- Store for claim C9: the conftest process, whose single step carries
`crystallizes_attribute_ids` (the field the model declares). -/
def storeC9 : Store := { store0 with processes := [testProcess] }

/-- Claim C9: `getCrystallizationPoints` is claimed to return one point per
step with non-empty `crystallizes_observation_ids`.  In fact the loop reads
`step.crystallizes_observation_ids` on every step of the process (the
`ProcessStep` model declares `crystallizes_attribute_ids`), so the call
raises `AttributeError` for any process with at least one step. -/
theorem c9_crystallization_points_raises :
    get_crystallization_points storeC9 "test_process" =
      Except.error (PyErr.attributeError "crystallizes_observation_ids") := by
  rfl

/-! ### Claim C7: step-selection precedence of `get_process_flow` -/

/-- Selection rule exactly as claim C7 states it: a filter argument counts
as "given" whenever a value was supplied (`some`), including the empty
string; top-level means falsy `parent_step_id`. -/
def claim_selected_steps (process : Process) (perspectiveLevel parentStepID : Option String) :
    List ProcessStep :=
  match parentStepID with
  | some p => process.steps.filter (fun s => s.parent_step_id == some p)
  | none =>
    match perspectiveLevel with
    | some l => process.steps.filter (fun s =>
        s.perspective_level == some l && !(pyTruthy s.parent_step_id))
    | none => process.steps.filter (fun s => !(pyTruthy s.parent_step_id))

/-- Claim C7 as stated: for every stored process, the shown nodes follow
the given/precedence rule of `claim_selected_steps`. -/
def C7_claim : Prop :=
  ∀ (st : Store) (pid : String) (lvl parent : Option String) (process : Process)
    (r : ProcessFlowResult),
    st.processById pid = some process →
    get_process_flow st pid lvl parent = some r →
    r.nodes = (claim_selected_steps process lvl parent).map node_of_step

/-- A top-level step (its `parent_step_id` is absent). -/
def stepC7 : ProcessStep :=
  { step0 with
    id := "s7", sequence := 1, name := "S7", perspective_id := "p" }

/-- Process for the C7 counterexample. -/
def processC7 : Process :=
  { id := "p7", name := "P7", description := none, steps := [stepC7] }

/-- Store for the C7 counterexample. -/
def storeC7 : Store := { store0 with processes := [processC7] }

/-- Claim C7 fails at `parentStepID = some ""`: the code tests Python
truthiness (`if parent_step_id:`), so an empty-string parent falls through
to the default branch and shows the top-level step, while the claim's
first branch would show only steps whose `parent_step_id` equals `""`
(none here). -/
theorem c7_counterexample : ¬ C7_claim := by
  intro h
  have h2 := h storeC7 "p7" none (some "") processC7
    { process_id := "p7", process_name := "P7", process_description := none,
      nodes := [node_of_step stepC7], edges := [] } rfl rfl
  exact absurd h2 (by decide)

/-- Claim C7 amended: the precedence rule holds with "given" read as
"given and non-empty" (Python truthiness): a supplied empty string behaves
as if the argument were absent. -/
theorem c7_selection_precedence (st : Store) (pid : String) (lvl parent : Option String)
    (process : Process) (r : ProcessFlowResult)
    (hfind : st.processById pid = some process)
    (hflow : get_process_flow st pid lvl parent = some r) :
    (∀ p, parent = some p → p ≠ "" →
      r.nodes = (process.steps.filter (fun s => s.parent_step_id == some p)).map node_of_step)
    ∧ (∀ l, (parent = none ∨ parent = some "") → lvl = some l → l ≠ "" →
      r.nodes = (process.steps.filter (fun s =>
        s.perspective_level == some l && !(pyTruthy s.parent_step_id))).map node_of_step)
    ∧ ((parent = none ∨ parent = some "") → (lvl = none ∨ lvl = some "") →
      r.nodes = (process.steps.filter (fun s => !(pyTruthy s.parent_step_id))).map node_of_step) := by
  have hr := hflow
  simp only [get_process_flow, hfind] at hr
  have hnodes : r.nodes = (steps_to_show process lvl parent).map node_of_step := by
    cases hr
    rfl
  refine ⟨?_, ?_, ?_⟩
  · intro p hp hpe
    subst hp
    have ht : pyTruthy (some p) = true := by
      simp [pyTruthy, bne_iff_ne, hpe]
    rw [hnodes]
    unfold steps_to_show
    rw [if_pos ht]
  · intro l hparent hl hle
    subst hl
    have hpf : pyTruthy parent = false := by
      rcases hparent with h | h <;> subst h <;> simp [pyTruthy]
    have ht : pyTruthy (some l) = true := by
      simp [pyTruthy, bne_iff_ne, hle]
    rw [hnodes]
    unfold steps_to_show
    rw [if_neg (by simp [hpf]), if_pos ht]
  · intro hparent hlvl
    have hpf : pyTruthy parent = false := by
      rcases hparent with h | h <;> subst h <;> simp [pyTruthy]
    have hlf : pyTruthy lvl = false := by
      rcases hlvl with h | h <;> subst h <;> simp [pyTruthy]
    rw [hnodes]
    unfold steps_to_show
    rw [if_neg (by simp [hpf]), if_neg (by simp [hlf])]

/-- A sub-step of `stepC7` for the C7 witness. -/
def stepC7child : ProcessStep :=
  { step0 with
    id := "s7c", sequence := 2, name := "S7C", perspective_id := "p",
    parent_step_id := some "s7" }

/-- Process for the C7 witness: one top-level step with one sub-step. -/
def processC7w : Process :=
  { id := "p7w", name := "P7W", description := none, steps := [stepC7, stepC7child] }

/-- Store for the C7 witness. -/
def storeC7w : Store := { store0 with processes := [processC7w] }

/-- Flow result computed for the C7 witness call. -/
def flowC7w : ProcessFlowResult :=
  { process_id := "p7w", process_name := "P7W", process_description := none,
    nodes := [node_of_step stepC7child], edges := [] }

/-- Witness for `c7_selection_precedence` at a concrete store: querying the
sub-steps of `s7` shows exactly the steps whose `parent_step_id` is `s7`. -/
theorem c7_selection_precedence_witness :
    get_process_flow storeC7w "p7w" none (some "s7") = some flowC7w ∧
    flowC7w.nodes =
      (processC7w.steps.filter (fun s => s.parent_step_id == some "s7")).map node_of_step :=
  ⟨rfl,
   (c7_selection_precedence storeC7w "p7w" none (some "s7") processC7w flowC7w rfl rfl).1
     "s7" rfl (by decide)⟩

/-! ### Claim C8: edge enumeration of `get_process_flow` -/

/-- Claim C8 as stated: exactly one edge per (dependencyID, stepID) PAIR
with the step shown and the dependency appearing in its
`depends_on_step_ids`. -/
def C8_claim : Prop :=
  ∀ (st : Store) (pid : String) (lvl parent : Option String) (process : Process)
    (r : ProcessFlowResult),
    st.processById pid = some process →
    get_process_flow st pid lvl parent = some r →
    ∀ e : FlowEdge,
      r.edges.count e =
        (if ∃ s ∈ steps_to_show process lvl parent,
            s.id = e.target ∧ e.source ∈ s.depends_on_step_ids then 1 else 0)

/-- A step whose dependency list contains a duplicate entry. -/
def stepC8 : ProcessStep :=
  { step0 with
    id := "sX", sequence := 1, name := "SX", perspective_id := "p",
    depends_on_step_ids := ["d", "d"] }

/-- Process for the C8 counterexample. -/
def processC8 : Process :=
  { id := "q8", name := "Q8", description := none, steps := [stepC8] }

/-- Store for the C8 counterexample. -/
def storeC8 : Store := { store0 with processes := [processC8] }

/-- Flow result computed for the C8 counterexample call. -/
def flowC8 : ProcessFlowResult :=
  { process_id := "q8", process_name := "Q8", process_description := none,
    nodes := [node_of_step stepC8],
    edges := [FlowEdge.mk "d" "sX", FlowEdge.mk "d" "sX"] }

/-- Claim C8 fails when `depends_on_step_ids` contains a duplicate: the
code emits one edge per list entry, so the pair ("d", "sX") gets two
edges, not one. -/
theorem c8_counterexample : ¬ C8_claim := by
  intro h
  have h2 := h storeC8 "q8" none none processC8 flowC8 rfl rfl (FlowEdge.mk "d" "sX")
  exact absurd h2 (by decide)

/-- Edge multiplicity as the amended claim states it: the number of edges
with a given source and target equals the number of OCCURRENCES of the
source in the `depends_on_step_ids` of shown steps with that id. -/
def occurrence_edge_count (shown : List ProcessStep) (e : FlowEdge) : Nat :=
  ((shown.filter (fun s => s.id == e.target)).map
    (fun s => s.depends_on_step_ids.count e.source)).sum

/-- Counting a fixed edge in the edges generated from one step's
dependency list. -/
theorem count_edges_of_step (ds : List String) (sid : String) (e : FlowEdge) :
    (ds.map (fun dep_id => FlowEdge.mk dep_id sid)).count e =
      if sid = e.target then ds.count e.source else 0 := by
  induction ds with
  | nil => simp
  | cons d ds ih =>
    cases e with
    | mk src tgt =>
      by_cases hs : sid = tgt <;>
        by_cases hd : d = src <;>
          simp_all [List.count_cons, FlowEdge.mk.injEq]

/-- Summing an if-guarded map equals mapping over the filtered list. -/
theorem sum_map_guard (xs : List ProcessStep) (t : String) (c : ProcessStep → Nat) :
    (xs.map (fun s => if s.id = t then c s else 0)).sum =
      ((xs.filter (fun s => s.id == t)).map c).sum := by
  induction xs with
  | nil => rfl
  | cons x xs ih =>
    by_cases h : x.id = t <;> simp [List.filter_cons, h, ih]

/-- Claim C8 amended: `get_process_flow` emits exactly one edge
`{source := dependencyID, target := stepID}` per OCCURRENCE of a
dependency in a shown step's `depends_on_step_ids` (duplicate occurrences
give duplicate edges), and an edge is present exactly when some shown step
has the edge's target as id and the edge's source among its dependencies
— with no requirement that the source also be shown. -/
theorem c8_edge_enumeration (st : Store) (pid : String) (lvl parent : Option String)
    (process : Process) (r : ProcessFlowResult)
    (hfind : st.processById pid = some process)
    (hflow : get_process_flow st pid lvl parent = some r) :
    (∀ e : FlowEdge,
      r.edges.count e = occurrence_edge_count (steps_to_show process lvl parent) e)
    ∧ (∀ e : FlowEdge,
      e ∈ r.edges ↔ ∃ s ∈ steps_to_show process lvl parent,
        s.id = e.target ∧ e.source ∈ s.depends_on_step_ids) := by
  have hr := hflow
  simp only [get_process_flow, hfind] at hr
  have hedges : r.edges = (steps_to_show process lvl parent).flatMap (fun step =>
      step.depends_on_step_ids.map (fun dep_id => FlowEdge.mk dep_id step.id)) := by
    cases hr
    rfl
  constructor
  · intro e
    rw [hedges]
    generalize steps_to_show process lvl parent = shown
    induction shown with
    | nil => simp [occurrence_edge_count]
    | cons s shown ih =>
      rw [List.flatMap_cons, List.count_append, ih, count_edges_of_step]
      unfold occurrence_edge_count
      by_cases h : s.id = e.target <;>
        simp [List.filter_cons, h, ih]
  · intro e
    rw [hedges]
    constructor
    · intro he
      rcases List.mem_flatMap.mp he with ⟨s, hs, hm⟩
      rcases List.mem_map.mp hm with ⟨d, hd, hde⟩
      exact ⟨s, hs, by rw [← hde], by rw [← hde]; exact hd⟩
    · rintro ⟨s, hs, ht, hsrc⟩
      exact List.mem_flatMap.mpr ⟨s, hs,
        List.mem_map.mpr ⟨e.source, hsrc, by rw [ht]⟩⟩

/-- Step S1 of the C8 scenario: no dependencies. -/
def stepS1 : ProcessStep :=
  { step0 with id := "s1", sequence := 1, name := "S1", perspective_id := "p" }

/-- Step S2 of the C8 scenario: depends on S1. -/
def stepS2 : ProcessStep :=
  { step0 with
    id := "s2", sequence := 2, name := "S2", perspective_id := "p",
    depends_on_step_ids := ["s1"] }

/-- Step S3 of the C8 scenario: depends on S1 and S2. -/
def stepS3 : ProcessStep :=
  { step0 with
    id := "s3", sequence := 3, name := "S3", perspective_id := "p",
    depends_on_step_ids := ["s1", "s2"] }

/-- Process for the C8 witness (the spec's three-step scenario). -/
def processC8w : Process :=
  { id := "p3s", name := "Three Steps", description := none,
    steps := [stepS1, stepS2, stepS3] }

/-- Store for the C8 witness. -/
def storeC8w : Store := { store0 with processes := [processC8w] }

/-- Flow result computed for the C8 witness call. -/
def flowC8w : ProcessFlowResult :=
  { process_id := "p3s", process_name := "Three Steps", process_description := none,
    nodes := [node_of_step stepS1, node_of_step stepS2, node_of_step stepS3],
    edges := [FlowEdge.mk "s1" "s2", FlowEdge.mk "s1" "s3", FlowEdge.mk "s2" "s3"] }

/-- Witness for `c8_edge_enumeration` on the spec's scenario: S1 (no
dependencies), S2 (depends on S1), S3 (depends on S1 and S2) yields
exactly 3 edges, and the edge (s2, s3) has multiplicity one. -/
theorem c8_edge_enumeration_witness :
    get_process_flow storeC8w "p3s" none none = some flowC8w ∧
    flowC8w.edges.length = 3 ∧
    flowC8w.edges.count (FlowEdge.mk "s2" "s3") =
      occurrence_edge_count (steps_to_show processC8w none none) (FlowEdge.mk "s2" "s3") :=
  ⟨rfl, rfl,
   (c8_edge_enumeration storeC8w "p3s" none none processC8w flowC8w rfl rfl).1
     (FlowEdge.mk "s2" "s3")⟩

/-! ### Claim C10: perspective_level / has_sub_steps defaulting -/

/-- Claim C10 as stated: a step lacking a `perspective_level` value is
treated as `"financial"` by `get_process_flow`: a top-level such step is
included under the `perspectiveLevel = "financial"` filter and its node
carries `perspective_level = "financial"`. -/
def C10_claim : Prop :=
  ∀ (st : Store) (pid : String) (process : Process),
    st.processById pid = some process →
    ∀ s ∈ process.steps, s.perspective_level = none →
      ((pyTruthy s.parent_step_id = false →
        s ∈ steps_to_show process (some "financial") none)
      ∧ (node_of_step s).perspective_level = some "financial")

/-- A top-level step whose stored `perspective_level` is `None` (an
explicit JSON `null` passes pydantic validation for `Optional[...]` and is
stored as `None`, bypassing the `"financial"` default). -/
def stepC10 : ProcessStep :=
  { step0 with
    id := "sL", sequence := 1, name := "SL", perspective_id := "p",
    perspective_level := none }

/-- Process for the C10 counterexample. -/
def processC10 : Process :=
  { id := "pL", name := "PL", description := none, steps := [stepC10] }

/-- Store for the C10 counterexample. -/
def storeC10 : Store := { store0 with processes := [processC10] }

/-- Claim C10 fails for a step whose stored `perspective_level` is `None`:
`getattr(step, "perspective_level", "financial")` returns the stored
`None` (the field exists on the model, so the fallback is dead), so the
step is excluded from the `"financial"` filter and its node carries
`None`, not `"financial"`. -/
theorem c10_counterexample : ¬ C10_claim := by
  intro h
  have h2 := h storeC10 "pL" processC10 rfl stepC10 (by decide) rfl
  exact absurd h2.2 (by decide)

/-- Pydantic validation of `ProcessStep.perspective_level`
(`app/models/process.py`): `Optional[PerspectiveLevel] =
Field(default="financial")`.  Input `none` models an absent key (the
default applies); `some v` a present value, where `v = none` is an
explicit `null`. -/
def validate_perspective_level : Option (Option String) → Option String
  | none => some "financial"
  | some v => v

/-- Pydantic validation of `ProcessStep.has_sub_steps`
(`app/models/process.py`): `Optional[bool] = Field(default=False)`. -/
def validate_has_sub_steps : Option (Option Bool) → Option Bool
  | none => some false
  | some v => v

/-- Claim C10 amended: a step CONSTRUCTED without a `perspective_level`
key receives the model default `"financial"` (and `has_sub_steps` the
default `false`) at validation; such a top-level step is included under
the `perspectiveLevel = "financial"` filter and its node carries
`perspective_level = "financial"` and `has_sub_steps = false`.  (A step
whose stored `perspective_level` is an explicit `null` is NOT treated as
financial: see `c10_counterexample`.) -/
theorem c10_validated_default_financial (st : Store) (pid : String) (process : Process)
    (hfind : st.processById pid = some process) (s : ProcessStep)
    (hs : s ∈ process.steps)
    (hlvl : s.perspective_level = validate_perspective_level none)
    (hsub : s.has_sub_steps = validate_has_sub_steps none)
    (htop : pyTruthy s.parent_step_id = false)
    (r : ProcessFlowResult)
    (hflow : get_process_flow st pid (some "financial") none = some r) :
    node_of_step s ∈ r.nodes
    ∧ (node_of_step s).perspective_level = some "financial"
    ∧ (node_of_step s).has_sub_steps = some false := by
  have hr := hflow
  simp only [get_process_flow, hfind] at hr
  have hnodes : r.nodes = (steps_to_show process (some "financial") none).map node_of_step := by
    cases hr
    rfl
  have hlvl' : s.perspective_level = some "financial" := hlvl
  have hsub' : s.has_sub_steps = some false := hsub
  have hshown : s ∈ steps_to_show process (some "financial") none := by
    unfold steps_to_show
    rw [if_neg (by simp [pyTruthy]), if_pos (by simp [pyTruthy])]
    exact List.mem_filter.mpr ⟨hs, by simp [hlvl', htop]⟩
  refine ⟨?_, ?_, ?_⟩
  · rw [hnodes]
    exact List.mem_map.mpr ⟨s, hshown, rfl⟩
  · simp [node_of_step, hlvl']
  · simp [node_of_step, hsub']

/-- A top-level step holding exactly the validation defaults (as produced
from an input without `perspective_level` and `has_sub_steps` keys). -/
def stepC10w : ProcessStep :=
  { step0 with id := "sW", sequence := 1, name := "SW", perspective_id := "p" }

/-- Process for the C10 witness. -/
def processC10w : Process :=
  { id := "pW", name := "PW", description := none, steps := [stepC10w] }

/-- Store for the C10 witness. -/
def storeC10w : Store := { store0 with processes := [processC10w] }

/-- Flow result computed for the C10 witness call. -/
def flowC10w : ProcessFlowResult :=
  { process_id := "pW", process_name := "PW", process_description := none,
    nodes := [node_of_step stepC10w], edges := [] }

/-- Witness for `c10_validated_default_financial` at a concrete store. -/
theorem c10_validated_default_financial_witness :
    get_process_flow storeC10w "pW" (some "financial") none = some flowC10w ∧
    (node_of_step stepC10w ∈ flowC10w.nodes
      ∧ (node_of_step stepC10w).perspective_level = some "financial"
      ∧ (node_of_step stepC10w).has_sub_steps = some false) :=
  ⟨rfl,
   c10_validated_default_financial storeC10w "pW" processC10w rfl stepC10w
     (by decide) rfl rfl rfl flowC10w rfl⟩

end OntologyGraph
